import Mathlib

/-!
# Chirpy credential core: shallow embedding and verification

This file embeds the credential core of the Chirpy service
(`src/internal/auth/auth.go`) in Lean 4 and proves the spec's claims
about it.

The core calls three third-party libraries whose observable behavior the
claims depend on; the parts of them that `auth.go` exercises are embedded
here as well, faithful to those libraries:

* `github.com/google/uuid` — canonical string form and `Parse`;
* `github.com/golang-jwt/jwt/v5` — `NewWithClaims`/`SignedString` and
  `ParseWithClaims` with the `WithIssuer` / `WithValidMethods` options,
  including the v5 claims validator (which joins all failing claim checks
  into one error);
* `github.com/alexedwards/argon2id` — `CreateHash` / `ComparePasswordAndHash`.

Modelling conventions:
* Go strings are Lean `String`s (byte positions become `List Char`
  positions via `String.data`).
* Time instants and durations are `Int` seconds since the epoch
  (JWT `NumericDate` serializes at second precision by default, and every
  duration in the code and spec is a whole number of seconds; a UTC
  instant is just an epoch offset, so the `UTC()` conversion is a no-op
  in this model). `time.Now()` becomes an explicit `now` argument.
* HMAC-SHA256 is modelled as an ideal MAC: a signature verifies under a
  key for given signed content iff it was produced by signing exactly
  that content with exactly that key (`Signature.mac` is a free
  constructor). Likewise `argon2.IDKey` is an ideal KDF
  (`Argon2Key.idKey` is free). This is the standard symbolic model of
  collision-free, unforgeable primitives.
* The fresh randomness drawn inside `HashPassword` (the salt) is made an
  explicit argument, as is standard for embedding probabilistic code.
* A JWT is modelled post-parse, as its (header algorithm, claim set,
  signature) triple; the purely structural failure modes of
  `ParseUnverified` (not three dot-separated segments, bad base64/JSON)
  have no counterpart on structured tokens and no claim concerns them.
-/

set_option maxRecDepth 4096

namespace Chirpy

/-! ## `github.com/google/uuid`

`uuid.UUID` is `[16]byte`.  `String()` renders the canonical lowercase
hex form `xxxxxxxx-xxxx-xxxx-xxxx-xxxxxxxxxxxx`; `Parse` accepts that
form plus the `urn:uuid:` prefixed, braced, and dash-less variants, each
selected by length exactly as in `uuid.Parse`. -/

/-- A 128-bit UUID as its 16 bytes, mirroring Go's `[16]byte`. -/
structure Uuid where
  b0 : Fin 256
  b1 : Fin 256
  b2 : Fin 256
  b3 : Fin 256
  b4 : Fin 256
  b5 : Fin 256
  b6 : Fin 256
  b7 : Fin 256
  b8 : Fin 256
  b9 : Fin 256
  b10 : Fin 256
  b11 : Fin 256
  b12 : Fin 256
  b13 : Fin 256
  b14 : Fin 256
  b15 : Fin 256
deriving DecidableEq, Repr

/-- `uuid.Nil`, the all-zero UUID that `ValidateJWT` returns on every
failure path. -/
def Uuid.nil : Uuid := ⟨0, 0, 0, 0, 0, 0, 0, 0, 0, 0, 0, 0, 0, 0, 0, 0⟩

/-- One lowercase hex digit, as produced by `encoding/hex` (digits then
`a`–`f`). -/
def hexDigit (n : Nat) : Char :=
  Char.ofNat (if n < 10 then 48 + n else 87 + n)

/-- The value of one hex digit, accepting both cases, as in `uuid`'s
`xvalues` table. -/
def hexVal (c : Char) : Option (Fin 16) :=
  let n := c.toNat
  if h : 48 ≤ n ∧ n ≤ 57 then some ⟨n - 48, by omega⟩
  else if h : 97 ≤ n ∧ n ≤ 102 then some ⟨n - 87, by omega⟩
  else if h : 65 ≤ n ∧ n ≤ 70 then some ⟨n - 55, by omega⟩
  else none

/-- `uuid.xtob`: two hex digits to one byte. -/
def xtob (c1 c2 : Char) : Option (Fin 256) :=
  match hexVal c1, hexVal c2 with
  | some h, some l => some ⟨16 * h.val + l.val, by
      have := h.isLt; have := l.isLt; omega⟩
  | _, _ => none

/-- The two hex characters of one byte. -/
def byteHexHi (b : Fin 256) : Char := hexDigit (b.val / 16)

/-- Low nibble character of one byte. -/
def byteHexLo (b : Fin 256) : Char := hexDigit (b.val % 16)

/-- The 36 characters of `UUID.String()`: lowercase hex with dashes at
(0-based) positions 8, 13, 18 and 23, exactly as `encodeHex` lays them
out. -/
def uuidChars (u : Uuid) : List Char :=
  [byteHexHi u.b0, byteHexLo u.b0, byteHexHi u.b1, byteHexLo u.b1,
   byteHexHi u.b2, byteHexLo u.b2, byteHexHi u.b3, byteHexLo u.b3, '-',
   byteHexHi u.b4, byteHexLo u.b4, byteHexHi u.b5, byteHexLo u.b5, '-',
   byteHexHi u.b6, byteHexLo u.b6, byteHexHi u.b7, byteHexLo u.b7, '-',
   byteHexHi u.b8, byteHexLo u.b8, byteHexHi u.b9, byteHexLo u.b9, '-',
   byteHexHi u.b10, byteHexLo u.b10, byteHexHi u.b11, byteHexLo u.b11,
   byteHexHi u.b12, byteHexLo u.b12, byteHexHi u.b13, byteHexLo u.b13,
   byteHexHi u.b14, byteHexLo u.b14, byteHexHi u.b15, byteHexLo u.b15]

/-- `uuid.UUID.String()`. -/
def Uuid.toString (u : Uuid) : String := ⟨uuidChars u⟩

/-- The canonical 36-character branch of `uuid.Parse`: dashes are
required at positions 8, 13, 18, 23 and the 16 bytes are read from the
fixed hex-pair positions (a 37-character input reaching this branch has
its last character ignored, as in the Go source). -/
def parseCanonical : List Char → Option Uuid
  | c0 :: c1 :: c2 :: c3 :: c4 :: c5 :: c6 :: c7 :: d1 ::
    c9 :: c10 :: c11 :: c12 :: d2 ::
    c14 :: c15 :: c16 :: c17 :: d3 ::
    c19 :: c20 :: c21 :: c22 :: d4 ::
    c24 :: c25 :: c26 :: c27 :: c28 :: c29 :: c30 :: c31 ::
    c32 :: c33 :: c34 :: c35 :: _ =>
    if d1 = '-' ∧ d2 = '-' ∧ d3 = '-' ∧ d4 = '-' then do
      let b0 ← xtob c0 c1
      let b1 ← xtob c2 c3
      let b2 ← xtob c4 c5
      let b3 ← xtob c6 c7
      let b4 ← xtob c9 c10
      let b5 ← xtob c11 c12
      let b6 ← xtob c14 c15
      let b7 ← xtob c16 c17
      let b8 ← xtob c19 c20
      let b9 ← xtob c21 c22
      let b10 ← xtob c24 c25
      let b11 ← xtob c26 c27
      let b12 ← xtob c28 c29
      let b13 ← xtob c30 c31
      let b14 ← xtob c32 c33
      let b15 ← xtob c34 c35
      some ⟨b0, b1, b2, b3, b4, b5, b6, b7, b8, b9, b10, b11, b12, b13, b14, b15⟩
    else none
  | _ => none

/-- The 32-character dash-less branch of `uuid.Parse`. -/
def parsePlain : List Char → Option Uuid
  | c0 :: c1 :: c2 :: c3 :: c4 :: c5 :: c6 :: c7 ::
    c8 :: c9 :: c10 :: c11 :: c12 :: c13 :: c14 :: c15 ::
    c16 :: c17 :: c18 :: c19 :: c20 :: c21 :: c22 :: c23 ::
    c24 :: c25 :: c26 :: c27 :: c28 :: c29 :: c30 :: c31 :: [] => do
    let b0 ← xtob c0 c1
    let b1 ← xtob c2 c3
    let b2 ← xtob c4 c5
    let b3 ← xtob c6 c7
    let b4 ← xtob c8 c9
    let b5 ← xtob c10 c11
    let b6 ← xtob c12 c13
    let b7 ← xtob c14 c15
    let b8 ← xtob c16 c17
    let b9 ← xtob c18 c19
    let b10 ← xtob c20 c21
    let b11 ← xtob c22 c23
    let b12 ← xtob c24 c25
    let b13 ← xtob c26 c27
    let b14 ← xtob c28 c29
    let b15 ← xtob c30 c31
    some ⟨b0, b1, b2, b3, b4, b5, b6, b7, b8, b9, b10, b11, b12, b13, b14, b15⟩
  | _ => none

/-- ASCII case-insensitive character comparison (`strings.EqualFold`
restricted to the ASCII prefix `urn:uuid:` that `Parse` compares). -/
def asciiEqFold (a b : Char) : Bool :=
  a.toLower = b.toLower

/-- `uuid.Parse`, dispatching on length exactly as the Go source: 36 for
the canonical form, 45 for `urn:uuid:` (case-insensitive prefix), 38 for
a braced form (only the opening brace position is skipped, as in the
source), 32 for dash-less hex; every other length is rejected. -/
def Uuid.parse (s : String) : Option Uuid :=
  let cs := s.data
  if cs.length = 36 then parseCanonical cs
  else if cs.length = 45 then
    if (List.zip (cs.take 9) "urn:uuid:".data).all fun p => asciiEqFold p.1 p.2 then
      parseCanonical (cs.drop 9)
    else none
  else if cs.length = 38 then parseCanonical (cs.drop 1)
  else if cs.length = 32 then parsePlain cs
  else none

/-- Decoding one byte's two hex characters recovers the byte. -/
theorem xtob_byteHex (b : Fin 256) : xtob (byteHexHi b) (byteHexLo b) = some b := by
  revert b; decide

/-- `uuid.Parse` is a left inverse of `UUID.String()`: the canonical form
of every UUID parses back to it. -/
theorem uuid_parse_toString (u : Uuid) : Uuid.parse u.toString = some u := by
  obtain ⟨b0, b1, b2, b3, b4, b5, b6, b7, b8, b9, b10, b11, b12, b13, b14, b15⟩ := u
  simp [Uuid.parse, Uuid.toString, uuidChars, parseCanonical, xtob_byteHex]

/-- The canonical form of a UUID is never the empty string. -/
theorem uuid_toString_ne_empty (u : Uuid) : u.toString ≠ "" := by
  simp [Uuid.toString, uuidChars, String.ext_iff]

/-! ## `github.com/golang-jwt/jwt/v5`

What `auth.go` exercises: `jwt.RegisteredClaims`, `NewWithClaims` +
`SignedString` for issuance, and `Parser.ParseWithClaims` configured with
`jwt.WithIssuer("chirpy")` and
`jwt.WithValidMethods([]string{"HS256"})` for validation.  The v5 parser
proceeds: `ParseUnverified` (header algorithm lookup in the method
registry), the `validMethods` check, the key function, signature
verification, and finally claims validation; the v5 `validator` collects
every failing registered-claim check (expiration, then not-before, then
issuer, in that textual order) and joins them into a single
`ErrTokenInvalidClaims` error. -/

/-- The fields of `jwt.RegisteredClaims` (RFC 7519 §4.1), in source
order; the `jti` claim is never set or read by this code and is carried
as the zero value.  Absent `NumericDate` pointers are `none`. -/
structure RegisteredClaims where
  issuer : String := ""
  subject : String := ""
  audience : List String := []
  expiresAt : Option Int := none
  notBefore : Option Int := none
  issuedAt : Option Int := none
  id : String := ""
deriving DecidableEq, Repr

/-- A token's signature.  `mac key alg claims` is the ideal HMAC of the
encoded header-and-payload (determined by the algorithm name and the
claim set) under `key`; `raw` is any other byte string an adversary may
attach. -/
inductive Signature where
  | mac (key : String) (alg : String) (claims : RegisteredClaims)
  | raw (bytes : List Nat)
deriving DecidableEq, Repr

/-- A compact JWS token after structural decoding: the header's `alg`
field, the payload's registered claims, and the signature over both. -/
structure Token where
  alg : String
  claims : RegisteredClaims
  sig : Signature
deriving DecidableEq, Repr

/-- One failing registered-claim check, as distinguished by the v5
validator's sentinel errors. -/
inductive ClaimError where
  | tokenExpired            -- jwt.ErrTokenExpired
  | tokenNotValidYet        -- jwt.ErrTokenNotValidYet
  | requiredClaimMissing    -- jwt.ErrTokenRequiredClaimMissing (empty iss)
  | tokenInvalidIssuer      -- jwt.ErrTokenInvalidIssuer
deriving DecidableEq, Repr

/-- A `ParseWithClaims` failure, one constructor per error creation site
along the path the code exercises. -/
inductive JwtError where
  /-- `ParseUnverified`: the header's `alg` is not in the method registry
  (`ErrTokenUnverifiable`, "signing method (alg) is unavailable"). -/
  | methodUnavailable (alg : String)
  /-- The `WithValidMethods` check: the algorithm is registered but not
  among the accepted ones ("signing method %v is invalid"). -/
  | signingMethodInvalid (alg : String)
  /-- The caller's key function returned an error
  (`ErrTokenUnverifiable`). -/
  | keyFuncError
  /-- Signature verification failed (`ErrTokenSignatureInvalid`). -/
  | signatureInvalid
  /-- Claims validation failed (`ErrTokenInvalidClaims` wrapping the
  joined list of failing checks, in the validator's order). -/
  | invalidClaims (errs : List ClaimError)
deriving DecidableEq, Repr

/-- The algorithm names registered by the library's `init` functions
(`GetSigningMethod` returns non-nil exactly for these). -/
def knownAlgs : List String :=
  ["HS256", "HS384", "HS512", "RS256", "RS384", "RS512",
   "ES256", "ES384", "ES512", "PS256", "PS384", "PS512",
   "EdDSA", "none"]

/-- The algorithms implemented by `*jwt.SigningMethodHMAC`, the type the
key function in `ValidateJWT` insists on. -/
def hmacAlgs : List String := ["HS256", "HS384", "HS512"]

/-- The v5 `validator.Validate` with an expected issuer and no expected
audience, no required expiry and no issued-at verification (the
configuration `ValidateJWT`'s options produce): expiration first
(valid iff `now` is strictly before `exp`; absent `exp` allowed), then
not-before (valid iff `now` is not before `nbf`), then the issuer
(required: empty signals `ErrTokenRequiredClaimMissing`, mismatch
`ErrTokenInvalidIssuer`).  All failures are collected in this order and
joined. -/
def validateClaims (expectedIss : String) (c : RegisteredClaims) (now : Int) :
    List ClaimError :=
  (match c.expiresAt with
   | none => []
   | some exp => if now < exp then [] else [ClaimError.tokenExpired])
  ++ (match c.notBefore with
   | none => []
   | some nbf => if now < nbf then [ClaimError.tokenNotValidYet] else [])
  ++ (if c.issuer = "" then [ClaimError.requiredClaimMissing]
      else if c.issuer = expectedIss then [] else [ClaimError.tokenInvalidIssuer])

/-- `Parser.ParseWithClaims` as configured in `ValidateJWT`: method
registry lookup, then the `WithValidMethods(["HS256"])` check, then
`auth.go`'s key function (which rejects non-HMAC methods and yields the
secret's bytes), then ideal-MAC signature verification, then claims
validation with expected issuer `"chirpy"`.  Returns the error of the
first failing stage, if any. -/
def parseWithClaims (tok : Token) (tokenSecret : String) (now : Int) :
    Option JwtError :=
  if tok.alg ∉ knownAlgs then some (JwtError.methodUnavailable tok.alg)
  else if tok.alg ≠ "HS256" then some (JwtError.signingMethodInvalid tok.alg)
  else if tok.alg ∉ hmacAlgs then some JwtError.keyFuncError
  else if tok.sig ≠ Signature.mac tokenSecret tok.alg tok.claims then
    some JwtError.signatureInvalid
  else match validateClaims "chirpy" tok.claims now with
    | [] => none
    | errs => some (JwtError.invalidClaims errs)

/-! ## `src/internal/auth/auth.go` — token service -/

/-- The error returned by `ValidateJWT`: either a `ParseWithClaims`
failure, or one of the two errors `auth.go` creates itself for the
subject claim. -/
inductive AuthError where
  | jwt (e : JwtError)
  /-- `errors.New("subject claim missing")`. -/
  | subjectMissing
  /-- `errors.New("subject is not a valid UUID")`. -/
  | subjectInvalid
deriving DecidableEq, Repr

/-- `MakeJWT(userID, tokenSecret, expiresIn)` at instant `now`
(`time.Now().UTC()`): builds the registered claims
{issuer `"chirpy"`, subject `userID.String()`, issued-at `now`,
expires-at `now + expiresIn`}, and signs them with HS256 under
`tokenSecret`.  Signing with a byte-slice key never fails, so the Go
error return is always nil and the model is total. -/
def MakeJWT (userID : Uuid) (tokenSecret : String) (expiresIn : Int)
    (now : Int) : Token :=
  let claims : RegisteredClaims :=
    { issuer := "chirpy"
      subject := userID.toString
      issuedAt := some now
      expiresAt := some (now + expiresIn) }
  { alg := "HS256", claims := claims, sig := Signature.mac tokenSecret "HS256" claims }

/-- `ValidateJWT(tokenString, tokenSecret)` at instant `now`, on the
structured token: run `ParseWithClaims`; on failure return
`(uuid.Nil, err)`.  Then reject an empty subject, then a subject that
`uuid.Parse` rejects; otherwise return the parsed UUID and no error.
The pair mirrors Go's `(uuid.UUID, error)` return, `none` meaning a nil
error. -/
def ValidateJWT (tok : Token) (tokenSecret : String) (now : Int) :
    Uuid × Option AuthError :=
  match parseWithClaims tok tokenSecret now with
  | some e => (Uuid.nil, some (AuthError.jwt e))
  | none =>
    if tok.claims.subject = "" then (Uuid.nil, some AuthError.subjectMissing)
    else match Uuid.parse tok.claims.subject with
      | none => (Uuid.nil, some AuthError.subjectInvalid)
      | some uid => (uid, none)

/-! ## `github.com/alexedwards/argon2id`

`CreateHash` draws a random salt, derives a key with `argon2.IDKey`, and
renders `$argon2id$v=19$m=...,t=...,p=...$salt$key`; that encoded string
is modelled as the structured record of exactly the fields it encodes
(the encoding is injective).  `ComparePasswordAndHash` decodes the hash,
re-derives the key from the candidate password with the decoded
parameters and salt, and compares in constant time. -/

/-- `argon2id.Params`. -/
structure Argon2Params where
  memory : Nat
  iterations : Nat
  parallelism : Nat
  saltLength : Nat
  keyLength : Nat
deriving DecidableEq, Repr

/-- `argon2id.DefaultParams`. -/
def defaultParams : Argon2Params :=
  { memory := 65536, iterations := 1, parallelism := 2,
    saltLength := 16, keyLength := 32 }

/-- `argon2.Version` (0x13). -/
def argon2Version : Nat := 19

/-- An Argon2id derived key, as the ideal KDF of its inputs
(`argon2.IDKey(password, salt, time, memory, threads, keyLen)`). -/
inductive Argon2Key where
  | idKey (password : String) (salt : Nat) (iterations memory parallelism keyLength : Nat)
deriving DecidableEq, Repr

/-- The `$argon2id$...` encoded hash string, as the record of the fields
it encodes. -/
structure PasswordHash where
  version : Nat
  memory : Nat
  iterations : Nat
  parallelism : Nat
  salt : Nat
  key : Argon2Key
  /-- The decoded key's byte length (`decodeHash` sets
  `params.KeyLength = uint32(len(key))`). -/
  keyLength : Nat
deriving DecidableEq, Repr

/-- `HashPassword(password)` with the salt randomness made explicit:
`argon2id.CreateHash(password, argon2id.DefaultParams)` derives the key
from the password and the fresh salt and encodes parameters, salt and
key.  Randomness generation is the only failure mode, so the model is
total in the salt. -/
def HashPassword (password : String) (salt : Nat) : PasswordHash :=
  { version := argon2Version
    memory := defaultParams.memory
    iterations := defaultParams.iterations
    parallelism := defaultParams.parallelism
    salt := salt
    key := Argon2Key.idKey password salt defaultParams.iterations
      defaultParams.memory defaultParams.parallelism defaultParams.keyLength
    keyLength := defaultParams.keyLength }

/-- `CheckPasswordHash(password, hash)` via
`argon2id.ComparePasswordAndHash`: reject a hash whose version is not
the library's (`decodeHash` returns "incompatible version of argon2"),
else re-derive the key with the decoded parameters and salt and compare.
`Except.error` is Go's `(false, err)`; `Except.ok` carries the match
result. -/
def CheckPasswordHash (password : String) (hash : PasswordHash) :
    Except String Bool :=
  if hash.version ≠ argon2Version then
    Except.error "incompatible version of argon2"
  else
    Except.ok (hash.key =
      Argon2Key.idKey password hash.salt hash.iterations hash.memory
        hash.parallelism hash.keyLength)

/-! ## Helper lemmas -/

/-- The claims `MakeJWT` builds pass the parser's claims validation at
every instant strictly before their expiry. -/
theorem validateClaims_MakeJWT (u : Uuid) (secret : String)
    (lifetime now t : Int) (h : t < now + lifetime) :
    validateClaims "chirpy" (MakeJWT u secret lifetime now).claims t = [] := by
  simp [validateClaims, MakeJWT, h]

/-- `ParseWithClaims` accepts a freshly issued token under the issuing
secret at every instant strictly before its expiry. -/
theorem parseWithClaims_MakeJWT (u : Uuid) (secret : String)
    (lifetime now t : Int) (h : t < now + lifetime) :
    parseWithClaims (MakeJWT u secret lifetime now) secret t = none := by
  have hc := validateClaims_MakeJWT u secret lifetime now t h
  simp only [parseWithClaims, MakeJWT] at hc ⊢
  rw [if_neg (by decide), if_neg (by decide), if_neg (by decide),
    if_neg (by simp), hc]

/-! ## The spec's claims -/

/-- C1: for every user identifier `u`, shared secret, and positive
lifetime, validating a token issued for `u` with that secret at any
instant before it expires succeeds and returns exactly `u`
(`Validate(Issue(u, secret, 1h), secret) = u`). -/
theorem C1_issue_validate_roundtrip (u : Uuid) (secret : String)
    (lifetime now t : Int) (hpos : 0 < lifetime)
    (hbefore : t < now + lifetime) :
    ValidateJWT (MakeJWT u secret lifetime now) secret t = (u, none) := by
  rw [ValidateJWT, parseWithClaims_MakeJWT u secret lifetime now t hbefore]
  simp only [MakeJWT]
  rw [if_neg (uuid_toString_ne_empty u), uuid_parse_toString u]

/-- C1 witness: the round trip at the spec's concrete scenario —
identifier `11111111-1111-1111-1111-111111111111`, secret `"s3cret"`,
one-hour lifetime, validated five seconds after issuance. -/
theorem C1_issue_validate_roundtrip_witness :
    ValidateJWT
      (MakeJWT ⟨17, 17, 17, 17, 17, 17, 17, 17, 17, 17, 17, 17, 17, 17, 17, 17⟩
        "s3cret" 3600 0) "s3cret" 5 =
      (⟨17, 17, 17, 17, 17, 17, 17, 17, 17, 17, 17, 17, 17, 17, 17, 17⟩, none) :=
  C1_issue_validate_roundtrip
    ⟨17, 17, 17, 17, 17, 17, 17, 17, 17, 17, 17, 17, 17, 17, 17, 17⟩
    "s3cret" 3600 0 5 (by decide) (by decide)

/-- C3: a token issued with a negative lifetime under the correct secret
is rejected at validation time as expired — the error is the
expiry-classified `ErrTokenExpired` (alone in the joined claims error) —
and that error is distinguishable from the signature-classified one. -/
theorem C3_negative_lifetime_expired (u : Uuid) (secret : String)
    (lifetime now : Int) (hneg : lifetime < 0) :
    ValidateJWT (MakeJWT u secret lifetime now) secret now =
      (Uuid.nil,
       some (AuthError.jwt (JwtError.invalidClaims [ClaimError.tokenExpired]))) ∧
    AuthError.jwt (JwtError.invalidClaims [ClaimError.tokenExpired]) ≠
      AuthError.jwt JwtError.signatureInvalid := by
  refine ⟨?_, by decide⟩
  have hc : validateClaims "chirpy" (MakeJWT u secret lifetime now).claims now
      = [ClaimError.tokenExpired] := by
    simp only [validateClaims, MakeJWT]
    rw [if_neg (by omega)]
    simp
  rw [ValidateJWT, parseWithClaims]
  rw [if_neg (by simp [MakeJWT, knownAlgs]), if_neg (by simp [MakeJWT]),
    if_neg (by simp [MakeJWT, hmacAlgs]), if_neg (by simp [MakeJWT]), hc]

/-- C3 witness: a token issued two seconds in the past fails with the
expiry error. -/
theorem C3_negative_lifetime_expired_witness :
    ValidateJWT (MakeJWT Uuid.nil "test-secret" (-2) 1000) "test-secret" 1000 =
      (Uuid.nil,
       some (AuthError.jwt (JwtError.invalidClaims [ClaimError.tokenExpired]))) ∧
    AuthError.jwt (JwtError.invalidClaims [ClaimError.tokenExpired]) ≠
      AuthError.jwt JwtError.signatureInvalid :=
  C3_negative_lifetime_expired Uuid.nil "test-secret" (-2) 1000 (by decide)

/-- C4: a token issued under one secret and validated under a different
secret is rejected with the signature-classified error and the nil
identifier, at every validation instant. -/
theorem C4_wrong_secret_bad_signature (u : Uuid) (secretA secretB : String)
    (lifetime now t : Int) (hne : secretA ≠ secretB) :
    ValidateJWT (MakeJWT u secretA lifetime now) secretB t =
      (Uuid.nil, some (AuthError.jwt JwtError.signatureInvalid)) := by
  rw [ValidateJWT, parseWithClaims]
  rw [if_neg (by simp [MakeJWT, knownAlgs]), if_neg (by simp [MakeJWT]),
    if_neg (by simp [MakeJWT, hmacAlgs]),
    if_pos (by simp [MakeJWT, Signature.mac.injEq, hne])]

/-- C4 witness: the test scenario — issue under `"correct-secret"`,
validate under `"wrong-secret"`. -/
theorem C4_wrong_secret_bad_signature_witness :
    ValidateJWT (MakeJWT Uuid.nil "correct-secret" 300 0) "wrong-secret" 0 =
      (Uuid.nil, some (AuthError.jwt JwtError.signatureInvalid)) :=
  C4_wrong_secret_bad_signature Uuid.nil "correct-secret" "wrong-secret" 300 0 0
    (by decide)

/-- C5: every token whose header algorithm is not exactly `"HS256"` —
the `"none"` algorithm included — is rejected regardless of its claim
contents, with the algorithm-classified error of the stage that catches
it: the `WithValidMethods` check for algorithms in the library's
registry, the method-registry lookup for all others.  Both precede every
signature, claims or subject check. -/
theorem C5_wrong_algorithm_rejected (tok : Token) (secret : String)
    (now : Int) (h : tok.alg ≠ "HS256") :
    ValidateJWT tok secret now =
      (Uuid.nil, some (AuthError.jwt
        (if tok.alg ∈ knownAlgs then JwtError.signingMethodInvalid tok.alg
         else JwtError.methodUnavailable tok.alg))) := by
  rw [ValidateJWT, parseWithClaims]
  by_cases hk : tok.alg ∈ knownAlgs
  · rw [if_neg (not_not_intro hk), if_pos h, if_pos hk]
  · rw [if_pos hk, if_neg hk]

/-- C5 witness: an unsigned (`alg = "none"`) token with a well-formed,
unexpired claim set for the issuer `"chirpy"` is still rejected, with
the `WithValidMethods` error. -/
theorem C5_wrong_algorithm_rejected_witness :
    ValidateJWT
      { alg := "none"
        claims := { issuer := "chirpy"
                    subject := "11111111-1111-1111-1111-111111111111"
                    issuedAt := some 0, expiresAt := some 3600 }
        sig := Signature.raw [] } "s3cret" 5 =
      (Uuid.nil,
       some (AuthError.jwt (JwtError.signingMethodInvalid "none"))) := by
  have := C5_wrong_algorithm_rejected
    { alg := "none"
      claims := { issuer := "chirpy"
                  subject := "11111111-1111-1111-1111-111111111111"
                  issuedAt := some 0, expiresAt := some 3600 }
      sig := Signature.raw [] } "s3cret" 5 (by decide)
  simpa using this

/-- C2 counterexample: a correctly signed token whose issuer is wrong
AND whose expiry is past.  Under the claim's check order
(algorithm, signature, issuer, expiry, subject), the earliest failing
check is the issuer, so the signaled error would be the issuer error
alone.  The code instead signals the joined claims error
`[tokenExpired, tokenInvalidIssuer]`: the expiry failure is reported
too, and first — the v5 validator checks expiry before the issuer and
joins every failing claim check rather than stopping at the first. -/
theorem C2_order_counterexample :
    (ValidateJWT
      { alg := "HS256"
        claims := { issuer := "evil"
                    subject := "11111111-1111-1111-1111-111111111111"
                    issuedAt := some 0, expiresAt := some 10 }
        sig := Signature.mac "s3cret" "HS256"
          { issuer := "evil"
            subject := "11111111-1111-1111-1111-111111111111"
            issuedAt := some 0, expiresAt := some 10 } } "s3cret" 100 =
      (Uuid.nil, some (AuthError.jwt (JwtError.invalidClaims
        [ClaimError.tokenExpired, ClaimError.tokenInvalidIssuer])))) ∧
    (JwtError.invalidClaims [ClaimError.tokenExpired, ClaimError.tokenInvalidIssuer] ≠
      JwtError.invalidClaims [ClaimError.tokenInvalidIssuer]) := by
  constructor
  · rw [ValidateJWT, parseWithClaims]
    rw [if_neg (by decide), if_neg (by decide), if_neg (by decide),
      if_neg (by simp)]
    rfl
  · decide

/-- C2 amended: `ValidateJWT` enforces its checks in stages — (1) the
signing algorithm (registry lookup, then the `WithValidMethods` check),
(2) the signature, (3) the registered-claim checks, (4) the subject —
and an earlier stage's error masks later stages; but within stage (3)
the expiry is checked BEFORE the issuer and every failing claim check is
collected into one joined error, so a token with both a wrong issuer and
a past expiry signals `[tokenExpired, tokenInvalidIssuer]`, not the
issuer error alone. -/
theorem C2_check_stage_order (tok : Token) (secret : String) (now : Int) :
    (tok.alg ∉ knownAlgs →
      ValidateJWT tok secret now =
        (Uuid.nil, some (AuthError.jwt (JwtError.methodUnavailable tok.alg)))) ∧
    (tok.alg ∈ knownAlgs → tok.alg ≠ "HS256" →
      ValidateJWT tok secret now =
        (Uuid.nil, some (AuthError.jwt (JwtError.signingMethodInvalid tok.alg)))) ∧
    (tok.alg = "HS256" → tok.sig ≠ Signature.mac secret "HS256" tok.claims →
      ValidateJWT tok secret now =
        (Uuid.nil, some (AuthError.jwt JwtError.signatureInvalid))) ∧
    (tok.alg = "HS256" → tok.sig = Signature.mac secret "HS256" tok.claims →
      validateClaims "chirpy" tok.claims now ≠ [] →
      ValidateJWT tok secret now =
        (Uuid.nil, some (AuthError.jwt
          (JwtError.invalidClaims (validateClaims "chirpy" tok.claims now))))) ∧
    (∀ e : Int, tok.claims.expiresAt = some e → e ≤ now →
      tok.claims.notBefore = none →
      tok.claims.issuer ≠ "" → tok.claims.issuer ≠ "chirpy" →
      validateClaims "chirpy" tok.claims now =
        [ClaimError.tokenExpired, ClaimError.tokenInvalidIssuer]) ∧
    (tok.alg = "HS256" → tok.sig = Signature.mac secret "HS256" tok.claims →
      validateClaims "chirpy" tok.claims now = [] →
      ValidateJWT tok secret now =
        (if tok.claims.subject = "" then (Uuid.nil, some AuthError.subjectMissing)
         else match Uuid.parse tok.claims.subject with
           | none => (Uuid.nil, some AuthError.subjectInvalid)
           | some uid => (uid, none))) := by
  refine ⟨?_, ?_, ?_, ?_, ?_, ?_⟩
  · intro h
    rw [ValidateJWT, parseWithClaims, if_pos h]
  · intro hk h
    rw [ValidateJWT, parseWithClaims, if_neg (not_not_intro hk), if_pos h]
  · intro halg hsig
    rw [ValidateJWT, parseWithClaims, halg]
    rw [if_neg (by decide), if_neg (by decide), if_neg (by decide), if_pos hsig]
  · intro halg hsig hne
    rw [ValidateJWT, parseWithClaims, halg]
    rw [if_neg (by decide), if_neg (by decide), if_neg (by decide),
      if_neg (not_not_intro hsig)]
    cases hv : validateClaims "chirpy" tok.claims now with
    | nil => exact absurd hv hne
    | cons a l => rfl
  · intro e hexp hle hnbf hiss1 hiss2
    rw [validateClaims, hexp, hnbf]
    simp only [List.nil_append]
    rw [if_neg (show ¬ now < e by omega), if_neg hiss1, if_neg hiss2]
    rfl
  · intro halg hsig hv
    rw [ValidateJWT, parseWithClaims, halg]
    rw [if_neg (by decide), if_neg (by decide), if_neg (by decide),
      if_neg (not_not_intro hsig), hv]

/-- C2 amended witness: the staged order evaluated at the token of the
counterexample's shape but with a fresh secret — the claims stage's
joined error surfaces whole. -/
theorem C2_check_stage_order_witness :
    ValidateJWT
      { alg := "HS256"
        claims := { issuer := "evil"
                    subject := "22222222-2222-2222-2222-222222222222"
                    issuedAt := some 0, expiresAt := some 10 }
        sig := Signature.mac "k" "HS256"
          { issuer := "evil"
            subject := "22222222-2222-2222-2222-222222222222"
            issuedAt := some 0, expiresAt := some 10 } } "k" 100 =
      (Uuid.nil, some (AuthError.jwt (JwtError.invalidClaims
        [ClaimError.tokenExpired, ClaimError.tokenInvalidIssuer]))) := by
  have h := C2_check_stage_order
    { alg := "HS256"
      claims := { issuer := "evil"
                  subject := "22222222-2222-2222-2222-222222222222"
                  issuedAt := some 0, expiresAt := some 10 }
      sig := Signature.mac "k" "HS256"
        { issuer := "evil"
          subject := "22222222-2222-2222-2222-222222222222"
          issuedAt := some 0, expiresAt := some 10 } } "k" 100
  have hv := h.2.2.2.2.1 10 rfl (by decide) rfl (by decide) (by decide)
  have := h.2.2.2.1 rfl rfl (by rw [hv]; decide)
  rw [hv] at this
  exact this

/-- C6: a token correctly signed under the shared secret whose claims
pass validation but whose subject is empty, or fails `uuid.Parse`, is
rejected with the corresponding subject-classified error — the valid
signature does not let it succeed. -/
theorem C6_bad_subject_rejected (c : RegisteredClaims) (secret : String)
    (now : Int) (hvalid : validateClaims "chirpy" c now = []) :
    (c.subject = "" →
      ValidateJWT ⟨"HS256", c, Signature.mac secret "HS256" c⟩ secret now =
        (Uuid.nil, some AuthError.subjectMissing)) ∧
    (c.subject ≠ "" → Uuid.parse c.subject = none →
      ValidateJWT ⟨"HS256", c, Signature.mac secret "HS256" c⟩ secret now =
        (Uuid.nil, some AuthError.subjectInvalid)) := by
  have hp : parseWithClaims ⟨"HS256", c, Signature.mac secret "HS256" c⟩
      secret now = none := by
    simp only [parseWithClaims]
    rw [if_neg (by decide), if_neg (by decide), if_neg (by decide),
      if_neg (by simp), hvalid]
  constructor
  · intro hs
    rw [ValidateJWT, hp]
    simp only [hs, if_pos]
  · intro hs hparse
    rw [ValidateJWT, hp]
    simp only [if_neg hs, hparse]

/-- C6 witness: the test's scenario — a correctly signed, unexpired
`"chirpy"` token with an empty subject fails with the missing-subject
error, and one with the non-UUID subject `"not-a-uuid"` with the
invalid-subject error. -/
theorem C6_bad_subject_rejected_witness :
    (ValidateJWT
      ⟨"HS256",
       { issuer := "chirpy", subject := "", issuedAt := some 0,
         expiresAt := some 300 },
       Signature.mac "test-secret" "HS256"
         { issuer := "chirpy", subject := "", issuedAt := some 0,
           expiresAt := some 300 }⟩ "test-secret" 0 =
      (Uuid.nil, some AuthError.subjectMissing)) ∧
    (ValidateJWT
      ⟨"HS256",
       { issuer := "chirpy", subject := "not-a-uuid", issuedAt := some 0,
         expiresAt := some 300 },
       Signature.mac "test-secret" "HS256"
         { issuer := "chirpy", subject := "not-a-uuid", issuedAt := some 0,
           expiresAt := some 300 }⟩ "test-secret" 0 =
      (Uuid.nil, some AuthError.subjectInvalid)) :=
  ⟨(C6_bad_subject_rejected
      { issuer := "chirpy", subject := "", issuedAt := some 0,
        expiresAt := some 300 } "test-secret" 0 (by decide)).1 rfl,
   (C6_bad_subject_rejected
      { issuer := "chirpy", subject := "not-a-uuid", issuedAt := some 0,
        expiresAt := some 300 } "test-secret" 0 (by decide)).2
      (by decide) (by decide)⟩

/-- C7: verifying a plaintext against its own fresh hash succeeds with
no error and returns true, for every non-empty plaintext and every salt
the hashing drew. -/
theorem C7_verify_own_hash (p : String) (salt : Nat) (hne : p ≠ "") :
    CheckPasswordHash p (HashPassword p salt) = Except.ok true := by
  simp [CheckPasswordHash, HashPassword, argon2Version, defaultParams]

/-- C7 witness: the round trip at a concrete password and salt. -/
theorem C7_verify_own_hash_witness :
    CheckPasswordHash "hunter2" (HashPassword "hunter2" 12345) =
      Except.ok true :=
  C7_verify_own_hash "hunter2" 12345 (by decide)

/-- C8: two hashes of the same plaintext differ whenever the two calls
drew different salts — which the fresh per-call randomness guarantees —
because the salt is embedded in the encoded hash. -/
theorem C8_salt_randomization (p : String) (s1 s2 : Nat) (hne : s1 ≠ s2) :
    HashPassword p s1 ≠ HashPassword p s2 := by
  intro h
  exact hne (congrArg PasswordHash.salt h)

/-- C8 witness: two concrete salts yield different hashes of the same
password. -/
theorem C8_salt_randomization_witness :
    HashPassword "hunter2" 0 ≠ HashPassword "hunter2" 1 :=
  C8_salt_randomization "hunter2" 0 1 (by decide)

/-- C9: for every identifier, secret and lifetime — zero and negative
lifetimes included, on which issuance still succeeds (the model is total
exactly because `SignedString` with a byte-slice key cannot fail and no
lower bound on the lifetime is checked) — `MakeJWT` produces the token
whose claim set is exactly {issuer `"chirpy"`, subject the identifier's
canonical string, issued-at `now`, expires-at `now + lifetime`} with
every other registered claim absent, carrying the mandated `"HS256"`
algorithm and the HMAC of those claims under the shared secret. -/
theorem C9_makeJWT_exact_claims (u : Uuid) (secret : String)
    (lifetime now : Int) :
    (MakeJWT u secret lifetime now).claims.issuer = "chirpy" ∧
    (MakeJWT u secret lifetime now).claims.subject = u.toString ∧
    (MakeJWT u secret lifetime now).claims.issuedAt = some now ∧
    (MakeJWT u secret lifetime now).claims.expiresAt = some (now + lifetime) ∧
    (MakeJWT u secret lifetime now).claims.audience = [] ∧
    (MakeJWT u secret lifetime now).claims.notBefore = none ∧
    (MakeJWT u secret lifetime now).claims.id = "" ∧
    (MakeJWT u secret lifetime now).alg = "HS256" ∧
    (MakeJWT u secret lifetime now).sig =
      Signature.mac secret "HS256" (MakeJWT u secret lifetime now).claims :=
  ⟨rfl, rfl, rfl, rfl, rfl, rfl, rfl, rfl, rfl⟩

/-- C10: `MakeJWT` accepts `uuid.Nil`, whose canonical form is the
non-empty well-formed UUID string of all zeros, so validating such a
token succeeds and returns `uuid.Nil` with a nil error — while every
failing validation also returns `uuid.Nil`; only the error component
tells the two apart. -/
theorem C10_nil_sentinel_ambiguous (secret : String) (lifetime now t : Int)
    (hbefore : t < now + lifetime) :
    ValidateJWT (MakeJWT Uuid.nil secret lifetime now) secret t =
      (Uuid.nil, none) ∧
    Uuid.nil.toString = "00000000-0000-0000-0000-000000000000" ∧
    (∀ (tok : Token) (s : String) (n : Int),
      (ValidateJWT tok s n).2 ≠ none → (ValidateJWT tok s n).1 = Uuid.nil) := by
  refine ⟨?_, by decide, ?_⟩
  · rw [ValidateJWT, parseWithClaims_MakeJWT Uuid.nil secret lifetime now t hbefore]
    simp only [MakeJWT]
    rw [if_neg (uuid_toString_ne_empty Uuid.nil), uuid_parse_toString Uuid.nil]
  · intro tok s n h
    rw [ValidateJWT] at h ⊢
    cases hp : parseWithClaims tok s n with
    | some e => simp
    | none =>
      by_cases hs : tok.claims.subject = ""
      · simp [hs]
      · cases hparse : Uuid.parse tok.claims.subject with
        | none => simp [hs, hparse]
        | some uid => simp [hp, hs, hparse] at h

/-- C10 witness: the all-zero token round-trips to `uuid.Nil` with no
error, and a failing validation (an unsigned token) returns the very
same identifier value. -/
theorem C10_nil_sentinel_ambiguous_witness :
    ValidateJWT (MakeJWT Uuid.nil "s3cret" 3600 0) "s3cret" 0 =
      (Uuid.nil, none) ∧
    (ValidateJWT { alg := "none", claims := {}, sig := Signature.raw [] }
      "s3cret" 0).1 = Uuid.nil := by
  have h := C10_nil_sentinel_ambiguous "s3cret" 3600 0 0 (by decide)
  exact ⟨h.1,
    h.2.2 { alg := "none", claims := {}, sig := Signature.raw [] } "s3cret" 0
      (by decide)⟩

end Chirpy
